import Mathlib

/-!
Shallow embedding of the stream-deck-spotify-plus coordination core:
the widget registries, the process-wide update scheduler, command
dispatch, the state-snapshot fan-out, and the dial image pipeline.
Each definition is translated from the TypeScript source file and
lines named in its doc comment.
-/

namespace SpotifyPlus

/-- Bridge player state, from src/types.ts (ButtonStates). -/
structure ButtonStates where
  is_playing : Bool
  is_liked : Bool
  is_shuffle : Bool
  is_muted : Bool
deriving Repr, DecidableEq

/-! ## Global refresh rate (spotify-base-action.ts, startGlobalUpdate)

A JavaScript number is modelled as `Option Rat`: `none` stands for NaN.
The stored global setting `refreshRate` is typed `number | undefined`
(types.ts), modelled as `Option JsNumber` with the outer `none` for an
absent key. -/

/-- JavaScript number: `none` models NaN, `some x` a real value. -/
abbrev JsNumber := Option ℚ

/-- Multiplication by a constant: NaN propagates, from the expression
`Number(settings.refreshRate) * 1000`. -/
def jsMulConst (a : JsNumber) (c : ℚ) : JsNumber :=
  a.map (fun x => x * c)

/-- JavaScript truthiness of a number: NaN and zero are falsy. -/
def jsTruthy (a : JsNumber) : Bool :=
  match a with
  | none => false
  | some x => decide (x ≠ 0)

/-- The `||` operator on a number with a numeric default, from
`... || 5000`. -/
def jsOrNumber (a : JsNumber) (dflt : ℚ) : ℚ :=
  if jsTruthy a then a.getD 0 else dflt

/-- `Number(settings.refreshRate)`: `Number(undefined)` is NaN, a number
converts to itself. -/
def numberOfStored (stored : Option JsNumber) : JsNumber :=
  match stored with
  | none => none
  | some v => v

/-- Interval passed to `setInterval`, from spotify-base-action.ts line 121:
`const refreshRate = Number(settings.refreshRate) * 1000 || 5000`. -/
def startRefreshRate (stored : Option JsNumber) : ℚ :=
  jsOrNumber (jsMulConst (numberOfStored stored) 1000) 5000

/-! ## Command dispatch (spotify-base-action.ts lines 16-56, sendAction)

The request is sent; the promise executor resolves on the response end
event without reading the status code, and rejects only when the request
error event fires. The transport outcome is the environment input. -/

/-- Outcome of the single POST request `sendAction` issues. -/
inductive PostOutcome where
  /-- A response arrived and its body was read to the end event. -/
  | response (statusCode : Nat) (body : String)
  /-- The request error event fired (transport failure). -/
  | connError (msg : String)
deriving Repr, DecidableEq

/-- Settled state of the promise `sendAction` returns. -/
inductive SendOutcome where
  | resolved
  | rejected (msg : String)
deriving Repr, DecidableEq

/-- Observable effects of one `sendAction` call. -/
structure SendEffects where
  /-- POST requests issued by this call. -/
  requestsSent : Nat
  logs : List String
  result : SendOutcome
deriving Repr, DecidableEq

/-- SpotifyBaseAction.sendAction (spotify-base-action.ts lines 16-56):
one request is written; the response handler logs and resolves on end,
reading no status code; the error handler logs and rejects. -/
def sendAction (actionType : String) (o : PostOutcome) : SendEffects :=
  match o with
  | .response _statusCode body =>
    { requestsSent := 1
      logs := ["POST response for " ++ actionType ++ ": " ++ body]
      result := .resolved }
  | .connError msg =>
    { requestsSent := 1
      logs := ["POST request failed for " ++ actionType ++ ": " ++ msg]
      result := .rejected msg }

/-- A status code in the 2xx range (used to state the spec side of C6;
the source never inspects the code). -/
def is2xx (statusCode : Nat) : Bool :=
  200 ≤ statusCode && statusCode < 300

/-! ## State-snapshot fan-out (spotify-base-action.ts lines 96-113,
updateAllButtonStates)

One fetch of STATES_URL; on an ok response the parsed states are pushed
to every instance whose action reference is set, each computing its
image with its own pure updateImage override; every failure lands in the
catch block, which only logs. -/

/-- Button action subtype: each concrete class overrides updateImage. -/
inductive ButtonKind where
  | playPause
  | nextTrack
  | previousTrack
  | toggleLike
  | toggleShuffle
  | volumeUp
  | volumeDown
  | volumeMute
  | volumeSet
  | startPlaylist
deriving Repr, DecidableEq

/-- Per-subtype updateImage override: the argument handed to setImage,
or `none` when the override sets no image (volume up and down).
From spotify-play-pause.ts lines 12-14 and the sibling action files. -/
def buttonImage (kind : ButtonKind) (states : ButtonStates) : Option String :=
  match kind with
  | .playPause =>
    some (if states.is_playing then "imgs/action/pause.png" else "imgs/action/play.png")
  | .nextTrack => some "imgs/action/next.png"
  | .previousTrack => some "imgs/action/previous.png"
  | .toggleLike =>
    some (if states.is_liked then "imgs/action/like_filled.png" else "imgs/action/like.png")
  | .toggleShuffle =>
    some (if states.is_shuffle then "imgs/action/shuffle_on.png" else "imgs/action/shuffle.png")
  | .volumeUp => none
  | .volumeDown => none
  | .volumeMute =>
    some (if states.is_muted then "imgs/action/mute.png" else "imgs/action/volume.png")
  | .volumeSet => some "imgs/action/volume.png"
  | .startPlaylist => some "imgs/action/playlist.png"

/-- One entry of the static `instances` list. `hasActionRef` is the
truthiness of `instance.action` tested at line 106. -/
structure ButtonInstance where
  id : Nat
  kind : ButtonKind
  hasActionRef : Bool
deriving Repr, DecidableEq

/-- How the snapshot fetch of one tick settles, covering every branch of
updateAllButtonStates. -/
inductive SnapshotOutcome where
  /-- response.ok and a well-formed body parsed to states. -/
  | ok (states : ButtonStates)
  /-- response.ok is false: the throw at line 99 reaches the catch. -/
  | httpNotOk (statusCode : Nat)
  /-- response.json() throws on a malformed body. -/
  | badBody (msg : String)
  /-- fetch itself rejects (transport failure). -/
  | transportError (msg : String)
deriving Repr, DecidableEq

/-- Observable effects of one updateAllButtonStates call. -/
structure TickEffects where
  /-- Fetches of STATES_URL issued by this call. -/
  stateRequests : Nat
  /-- Per instance id, the argument its updateImage handed to setImage. -/
  imageWrites : List (Nat × Option String)
  errorLogged : Bool
  /-- Whether an exception escaped the call (the catch swallows all). -/
  threw : Bool
deriving Repr, DecidableEq

/-- SpotifyBaseAction.updateAllButtonStates (lines 96-113): one fetch;
on success the same parsed states value is handed to every instance with
an action reference; any failure is caught and logged, updating
nothing. -/
def updateAllButtonStates (o : SnapshotOutcome) (instances : List ButtonInstance) :
    TickEffects :=
  match o with
  | .ok states =>
    { stateRequests := 1
      imageWrites :=
        (instances.filter (fun i => i.hasActionRef)).map
          (fun i => (i.id, buttonImage i.kind states))
      errorLogged := false
      threw := false }
  | _ =>
    { stateRequests := 1
      imageWrites := []
      errorLogged := true
      threw := false }

/-- The body of updateAllButtonStates never touches the static timer
handle: the call leaves `updateInterval` exactly as it found it. -/
def updateAllButtonStatesFull (o : SnapshotOutcome) (instances : List ButtonInstance)
    (updateInterval : Option Nat) : TickEffects × Option Nat :=
  (updateAllButtonStates o instances, updateInterval)

/-! ## Scheduler start and stop with suspension points
(spotify-base-action.ts lines 115-135 and src/unnamed/part_002
lines 103-130)

startGlobalUpdate tests `!SpotifyBaseAction.updateInterval`
synchronously, then suspends at `await updateAllButtonStates()` (and the
settings await); only after resuming does it assign
`updateInterval = setInterval(...)`, without rechecking the guard.
stopGlobalUpdate clears exactly the handle currently stored. Each step
below is one synchronously executed segment between suspension points of
the single event loop. -/

/-- Process-wide scheduler state: the stored handle, the start calls
suspended between their guard and their assignment, and the history of
created and cleared interval timers. -/
structure SchedState where
  updateInterval : Option Nat
  /-- Count of startGlobalUpdate calls past the guard, suspended at
  their awaits. -/
  pendingStarts : Nat
  createdTimers : List Nat
  clearedTimers : List Nat
  nextTimerId : Nat
deriving Repr, DecidableEq

/-- Scheduler state before any event. -/
def schedInit : SchedState :=
  { updateInterval := none
    pendingStarts := 0
    createdTimers := []
    clearedTimers := []
    nextTimerId := 0 }

/-- Atomic segments of the scheduler code between suspension points. -/
inductive SchedEvent where
  /-- startGlobalUpdate is called: the guard runs synchronously; when it
  passes, the call suspends at its first await. -/
  | startCall
  /-- One suspended start resumes past its awaits and runs
  `updateInterval = setInterval(...)` with no recheck. -/
  | resumeStart
  /-- stopGlobalUpdate is called (runs synchronously). -/
  | stopCall
deriving Repr, DecidableEq

/-- One scheduler step, from the source segments described above. -/
def schedStep (s : SchedState) : SchedEvent → SchedState
  | .startCall =>
    if s.updateInterval.isNone then
      { s with pendingStarts := s.pendingStarts + 1 }
    else
      s
  | .resumeStart =>
    match s.pendingStarts with
    | 0 => s
    | n + 1 =>
      { s with
          pendingStarts := n
          updateInterval := some s.nextTimerId
          createdTimers := s.createdTimers ++ [s.nextTimerId]
          nextTimerId := s.nextTimerId + 1 }
  | .stopCall =>
    match s.updateInterval with
    | none => s
    | some t =>
      { s with
          updateInterval := none
          clearedTimers := s.clearedTimers ++ [t] }

/-- Run a list of scheduler events from a state. -/
def schedRun (s : SchedState) : List SchedEvent → SchedState
  | [] => s
  | e :: rest => schedRun (schedStep s e) rest

/-- Recurring timers created by setInterval and never cleared. -/
def activeTimers (s : SchedState) : List Nat :=
  s.createdTimers.filter (fun t => ¬ s.clearedTimers.contains t)

/-! ## Tick overlap (the setInterval callback of startGlobalUpdate)

The recurring callback is `() => SpotifyBaseAction.updateAllButtonStates()`
(line 124; the part_002 variant awaits inside the callback, which
setInterval ignores). Nothing records whether a previous snapshot fetch
is still outstanding: every fire of the timer immediately issues a new
fetch of STATES_URL. -/

/-- Outstanding-fetch bookkeeping across timer fires. -/
structure TickState where
  outstandingFetches : Nat
  fetchesIssued : Nat
deriving Repr, DecidableEq

/-- Tick state before the timer ever fires. -/
def tickInit : TickState :=
  { outstandingFetches := 0, fetchesIssued := 0 }

/-- Events at the tick level. -/
inductive TickEvent where
  /-- The recurring timer fires and the callback runs updateAllButtonStates,
  whose first statement issues the snapshot fetch. -/
  | timerFire
  /-- One outstanding snapshot fetch settles (resolves or rejects). -/
  | fetchSettle
deriving Repr, DecidableEq

/-- One tick-level step from the source callback: a fire issues a fetch
unconditionally; a settle retires one. -/
def tickStep (s : TickState) : TickEvent → TickState
  | .timerFire =>
    { outstandingFetches := s.outstandingFetches + 1
      fetchesIssued := s.fetchesIssued + 1 }
  | .fetchSettle =>
    { s with outstandingFetches := s.outstandingFetches - 1 }

/-- Run a list of tick events from a state. -/
def tickRun (s : TickState) : List TickEvent → TickState
  | [] => s
  | e :: rest => tickRun (tickStep s e) rest

/-! ## Widget registries and the scheduler transitions
(spotify-base-action.ts lines 64-91, spotify-play-pause.ts lines 104-126)

Buttons live in the static list `SpotifyBaseAction.instances`; dials in
the separate static map `SpotifyPlayerDial.dialActions`. A button appear
pushes when absent and starts the scheduler only on length 1; a button
disappear splices and stops the scheduler when the list is empty. A dial
appear stores its entry and calls startGlobalUpdate unconditionally; a
dial disappear only deletes its entry and never stops the scheduler.
Each handler runs to completion here (the guard suspension race is the
scheduler model above). -/

/-- Combined registry state with the timer flag of the atomic view. -/
structure RegState where
  buttons : List Nat
  dials : List (Nat × String)
  timerRunning : Bool
deriving Repr, DecidableEq

/-- Registry state before any lifecycle event. -/
def regInit : RegState :=
  { buttons := [], dials := [], timerRunning := false }

/-- Insertion-ordered map set, the semantics of `Map.prototype.set`. -/
def mapSetNat (m : List (Nat × String)) (k : Nat) (v : String) : List (Nat × String) :=
  match m with
  | [] => [(k, v)]
  | (k2, v2) :: rest =>
    if k2 = k then (k, v) :: rest else (k2, v2) :: mapSetNat rest k v

/-- Widget lifecycle events reaching the registries. -/
inductive RegEvent where
  | buttonAppear (id : Nat)
  | buttonDisappear (id : Nat)
  | dialAppear (id : Nat) (url : String)
  | dialDisappear (id : Nat)
deriving Repr, DecidableEq

/-- One lifecycle step, handler by handler from the source. -/
def regStep (s : RegState) : RegEvent → RegState
  | .buttonAppear id =>
    if id ∈ s.buttons then
      s
    else
      let buttons := s.buttons ++ [id]
      { s with
          buttons := buttons
          timerRunning := if buttons.length = 1 then true else s.timerRunning }
  | .buttonDisappear id =>
    let buttons := s.buttons.erase id
    { s with
        buttons := buttons
        timerRunning := if buttons = [] then false else s.timerRunning }
  | .dialAppear id url =>
    { s with
        dials := mapSetNat s.dials id url
        timerRunning := true }
  | .dialDisappear id =>
    { s with dials := s.dials.filter (fun p => ¬ p.1 = id) }

/-- Run a list of lifecycle events from a state. -/
def regRun (s : RegState) : List RegEvent → RegState
  | [] => s
  | e :: rest => regRun (regStep s e) rest

/-! ## Image download with bounded retry
(spotify-player-dial.ts lines 26-79, downloadImage)

One GET per attempt with a 5 second timeout. The response handler
rejects on any status other than 200 and resolves a data URI on 200;
the error event retries with retries - 1 while retries > 0, else
rejects; the timeout event destroys the request and rejects with no
retry. The environment is a function from the attempt index to that
attempt's outcome. -/

/-- Outcome of one GET attempt against the image source. -/
inductive AttemptOutcome where
  /-- A response arrived with this status and body. -/
  | response (statusCode : Nat) (body : String)
  /-- The request error event fired. -/
  | connError (msg : String)
  /-- The 5 second timeout event fired. -/
  | timedOut
deriving Repr, DecidableEq

/-- Settled value of the promise downloadImage returns. -/
inductive DownloadResult where
  /-- Resolved: the data URI payload built from the body. -/
  | image (body : String)
  /-- Rejected with this message (handled by the caller). -/
  | failed (msg : String)
deriving Repr, DecidableEq

/-- SpotifyPlayerDial.downloadImage (spotify-player-dial.ts lines 26-79)
paired with the total number of GET attempts it performs. Structure:
status other than 200 rejects at once; a connection error recurses with
retries - 1 when retries > 0 and rejects when retries = 0; a timeout
rejects at once. -/
def downloadImage (behavior : Nat → AttemptOutcome) (attempt retries : Nat) :
    DownloadResult × Nat :=
  match behavior attempt with
  | .response statusCode body =>
    if statusCode ≠ 200 then
      (.failed ("HTTP Error: " ++ toString statusCode), 1)
    else
      (.image body, 1)
  | .timedOut => (.failed "Request timeout", 1)
  | .connError msg =>
    match retries with
    | 0 => (.failed msg, 1)
    | r + 1 =>
      let rest := downloadImage behavior (attempt + 1) r
      (rest.1, rest.2 + 1)

/-! ## Dial feedback and the in-flight fetch state
(spotify-play-pause.ts lines 30-126, the SpotifyPlayerDial class with
the static dialActions map)

The static updateImage awaits one GET for the url it was handed and then
calls setFeedback with the downloaded data URI; every failure lands in
its catch, which calls setFeedback with the fixed placeholder
imgs/action/dial-error.png. Nothing compares the url of the settled
fetch with the url currently stored for the widget. -/

/-- Argument of setFeedback: the image payload shown on the dial. -/
inductive Feedback where
  /-- Data URI built from the downloaded body. -/
  | dataImage (body : String)
  /-- Fixed plugin asset path. -/
  | assetImage (path : String)
deriving Repr, DecidableEq

/-- Feedback the static updateImage applies for a settled fetch:
the data URI on a 200 response, the placeholder on anything else
(spotify-play-pause.ts lines 41-44, 74-83). -/
def dialFeedbackOf (o : AttemptOutcome) : Feedback :=
  match o with
  | .response 200 body => .dataImage body
  | .response _ _ => .assetImage "imgs/action/dial-error.png"
  | .connError _ => .assetImage "imgs/action/dial-error.png"
  | .timedOut => .assetImage "imgs/action/dial-error.png"

/-- Insertion-ordered map set over string keys, the semantics of
`Map.prototype.set`. -/
def mapSetStr (m : List (String × String)) (k v : String) : List (String × String) :=
  match m with
  | [] => [(k, v)]
  | (k2, v2) :: rest =>
    if k2 = k then (k, v) :: rest else (k2, v2) :: mapSetStr rest k v

/-- Insertion-ordered map set for the displayed feedback per widget. -/
def mapSetFeedback (m : List (String × Feedback)) (k : String) (v : Feedback) :
    List (String × Feedback) :=
  match m with
  | [] => [(k, v)]
  | (k2, v2) :: rest =>
    if k2 = k then (k, v) :: rest else (k2, v2) :: mapSetFeedback rest k v

/-- Remove the first occurrence of a pair from the in-flight list. -/
def removeOneFetch (l : List (String × String)) (p : String × String) :
    List (String × String) :=
  match l with
  | [] => []
  | q :: rest => if q = p then rest else q :: removeOneFetch rest p

/-- State of the dial controllers: the dialActions entries (id to stored
url), the feedback last applied per widget id, and the fetches issued by
updateImage that have not yet settled. -/
structure DialsState where
  entries : List (String × String)
  displayed : List (String × Feedback)
  inFlight : List (String × String)
deriving Repr, DecidableEq

/-- Dial state before any event. -/
def dialsInit : DialsState :=
  { entries := [], displayed := [], inFlight := [] }

/-- Dial-side events: the lifecycle and settings handlers run their
synchronous part and leave a fetch in flight; a settle event applies
the feedback for one in-flight fetch. -/
inductive DialEvent where
  /-- onWillAppear (lines 104-118): store the entry under the id with
  `String(imgUrl || '')` and issue updateImage for that url. -/
  | willAppear (id : String) (imgUrl : Option String)
  /-- onDidReceiveSettings (lines 86-102): when an entry exists for the
  id, overwrite its url with `imgUrl || ''` and issue updateImage. -/
  | settingsChange (id : String) (imgUrl : Option String)
  /-- The GET issued for (id, url) settles; updateImage resumes and
  calls setFeedback on the captured action with no staleness check. -/
  | fetchSettle (id : String) (url : String) (o : AttemptOutcome)
  /-- onWillDisappear (lines 120-126): delete the entry. -/
  | willDisappear (id : String)

/-- One dial-side step, translated handler by handler. -/
def dialStep (s : DialsState) : DialEvent → DialsState
  | .willAppear id imgUrl =>
    let url := imgUrl.getD ""
    { s with
        entries := mapSetStr s.entries id url
        inFlight := s.inFlight ++ [(id, url)] }
  | .settingsChange id imgUrl =>
    let url := imgUrl.getD ""
    match s.entries.lookup id with
    | none => s
    | some _ =>
      { s with
          entries := mapSetStr s.entries id url
          inFlight := s.inFlight ++ [(id, url)] }
  | .fetchSettle id url o =>
    if (id, url) ∈ s.inFlight then
      { s with
          inFlight := removeOneFetch s.inFlight (id, url)
          displayed := mapSetFeedback s.displayed id (dialFeedbackOf o) }
    else
      s
  | .willDisappear id =>
    { s with entries := s.entries.filter (fun p => ¬ p.1 = id) }

/-- Run a list of dial events from a state. -/
def dialsRun (s : DialsState) : List DialEvent → DialsState
  | [] => s
  | e :: rest => dialsRun (dialStep s e) rest

/-! ## Dial rotation (spotify-play-pause.ts lines 158-175, onDialRotate) -/

/-- The per-dial settings fields onDialRotate reads. -/
structure RotateSettings where
  dialActionDown : Option String
  dialActionUp : Option String
  imgUrl : Option String
deriving Repr, DecidableEq

/-- Modelled from the spec: the static overload
`SpotifyBaseAction.sendAction(actionType, additionalData)` used at
spotify-play-pause.ts line 172 is not among the source files (only its
call sites are); per the spec, dispatchCommand constructs a request
carrying the action name and its payload. -/
structure CommandDispatch where
  action : String
  magnitudePayload : Nat
deriving Repr, DecidableEq

/-- Observable effects of one onDialRotate invocation, with the dispatch
promise outcome as environment input. -/
structure RotateEffects where
  logs : List String
  dispatched : Option CommandDispatch
  /-- Url refreshed by the follow-up updateImage when the dispatch
  resolved. -/
  refreshedUrl : Option String
deriving Repr, DecidableEq

/-- SpotifyPlayerDial.onDialRotate (lines 158-175): negative ticks pick
dialActionDown, other ticks dialActionUp, each defaulted to the empty
string; the empty command only logs; otherwise sendAction is called with
the absolute tick count and, when it resolves, updateImage runs once for
the settings url. -/
def onDialRotate (settings : RotateSettings) (ticks : ℤ)
    (dispatchResolves : Bool) : RotateEffects :=
  let a :=
    if ticks < 0 then settings.dialActionDown.getD ""
    else settings.dialActionUp.getD ""
  if a = "" then
    { logs := ["onDialRotate triggered: no action"]
      dispatched := none
      refreshedUrl := none }
  else
    { logs := ["onDialRotate triggered: " ++ a]
      dispatched := some { action := a, magnitudePayload := ticks.natAbs }
      refreshedUrl :=
        if dispatchResolves then some (settings.imgUrl.getD "") else none }

/-!
## Theorems

Every claim of the specification is settled below against the
definitions above; helper lemmas come first.
-/

/-- C10: whenever the global scheduler starts, a stored global
refreshRate that is absent, zero or NaN yields a recurring interval of
exactly 5000 milliseconds, and any other numeric value r yields an
interval of r * 1000 milliseconds. -/
theorem c10_start_interval (stored : Option JsNumber) :
    ((stored = none ∨ stored = some none ∨ stored = some (some 0)) →
      startRefreshRate stored = 5000)
    ∧ (∀ r : ℚ, r ≠ 0 → stored = some (some r) →
      startRefreshRate stored = r * 1000) := by
  constructor
  · rintro (rfl | rfl | rfl) <;>
      simp [startRefreshRate, jsOrNumber, jsMulConst, numberOfStored, jsTruthy]
  · rintro r hr rfl
    have hmul : r * 1000 ≠ 0 := mul_ne_zero hr (by norm_num)
    simp [startRefreshRate, jsOrNumber, jsMulConst, numberOfStored, jsTruthy, hmul]

/-- C10 witness: concrete evaluations through the theorem, with stored
rate 2 giving 2000 and an absent rate giving 5000. -/
theorem c10_start_interval_witness :
    startRefreshRate (some (some 2)) = 2000 ∧ startRefreshRate none = 5000 :=
  ⟨by
    have h := (c10_start_interval (some (some 2))).2 2 (by norm_num) rfl
    norm_num at h
    exact h,
   (c10_start_interval none).1 (Or.inl rfl)⟩

/-- C6 counterexample: a dispatch that receives a 500 response resolves,
although 500 is not a 2xx status, so a non-2xx response does not yield a
rejected outcome. -/
theorem c6_counterexample :
    (sendAction "playpause" (PostOutcome.response 500 "oops")).result
      = SendOutcome.resolved
    ∧ is2xx 500 = false :=
  ⟨rfl, by decide⟩

/-- C6 amended: the outcome of a dispatch is rejected exactly when the
transport fails; any received response resolves the outcome regardless
of its status code, and exactly one request is sent with no automatic
retry. -/
theorem c6_amended (actionType : String) (o : PostOutcome) :
    ((sendAction actionType o).result = SendOutcome.resolved ↔
      ∃ statusCode body, o = PostOutcome.response statusCode body)
    ∧ (∀ msg, (sendAction actionType o).result = SendOutcome.rejected msg ↔
      o = PostOutcome.connError msg)
    ∧ (sendAction actionType o).requestsSent = 1 := by
  cases o <;> simp [sendAction]

/-- C7: a tick whose snapshot fetch fails at the transport level, with a
non-ok status or with a malformed body changes no widget image, logs the
error, lets no exception escape, and leaves the stored timer handle
exactly as it found it. -/
theorem c7_failed_tick_noop (o : SnapshotOutcome) (instances : List ButtonInstance)
    (updateInterval : Option Nat)
    (h : ∀ states, o ≠ SnapshotOutcome.ok states) :
    (updateAllButtonStates o instances).imageWrites = []
    ∧ (updateAllButtonStates o instances).errorLogged = true
    ∧ (updateAllButtonStates o instances).threw = false
    ∧ (updateAllButtonStatesFull o instances updateInterval).2 = updateInterval := by
  cases o with
  | ok states => exact absurd rfl (h states)
  | httpNotOk statusCode => exact ⟨rfl, rfl, rfl, rfl⟩
  | badBody msg => exact ⟨rfl, rfl, rfl, rfl⟩
  | transportError msg => exact ⟨rfl, rfl, rfl, rfl⟩

/-- C7 witness: a transport failure during a tick with one registered
play-pause button, evaluated through the theorem. -/
theorem c7_failed_tick_noop_witness :
    (updateAllButtonStates (SnapshotOutcome.transportError "ECONNREFUSED")
      [{ id := 0, kind := ButtonKind.playPause, hasActionRef := true }]).imageWrites = []
    ∧ (updateAllButtonStates (SnapshotOutcome.transportError "ECONNREFUSED")
      [{ id := 0, kind := ButtonKind.playPause, hasActionRef := true }]).errorLogged = true
    ∧ (updateAllButtonStates (SnapshotOutcome.transportError "ECONNREFUSED")
      [{ id := 0, kind := ButtonKind.playPause, hasActionRef := true }]).threw = false
    ∧ (updateAllButtonStatesFull (SnapshotOutcome.transportError "ECONNREFUSED")
      [{ id := 0, kind := ButtonKind.playPause, hasActionRef := true }] (some 7)).2 = some 7 :=
  c7_failed_tick_noop (SnapshotOutcome.transportError "ECONNREFUSED")
    [{ id := 0, kind := ButtonKind.playPause, hasActionRef := true }] (some 7)
    (by intro states; simp)

/-- C8: a successful tick issues exactly one snapshot request however
many instances are registered, and every registered instance whose
action reference is set receives an image computed by its own pure
mapping from that single snapshot value. -/
theorem c8_single_fetch_fanout (states : ButtonStates) (instances : List ButtonInstance) :
    (updateAllButtonStates (SnapshotOutcome.ok states) instances).stateRequests = 1
    ∧ ∀ i ∈ instances, i.hasActionRef = true →
      (i.id, buttonImage i.kind states)
        ∈ (updateAllButtonStates (SnapshotOutcome.ok states) instances).imageWrites := by
  refine ⟨rfl, ?_⟩
  intro i hi hact
  show (i.id, buttonImage i.kind states)
    ∈ (instances.filter (fun j => j.hasActionRef)).map
      (fun j => (j.id, buttonImage j.kind states))
  exact List.mem_map.mpr ⟨i, List.mem_filter.mpr ⟨hi, hact⟩, rfl⟩

/-- C8 witness: two registered buttons with a playing snapshot, each
receiving its image from the one shared snapshot, through the theorem. -/
theorem c8_single_fetch_fanout_witness :
    (updateAllButtonStates
      (SnapshotOutcome.ok { is_playing := true, is_liked := false,
                            is_shuffle := false, is_muted := false })
      [{ id := 0, kind := ButtonKind.playPause, hasActionRef := true },
       { id := 1, kind := ButtonKind.toggleLike, hasActionRef := true }]).stateRequests = 1
    ∧ (0, some "imgs/action/pause.png")
        ∈ (updateAllButtonStates
          (SnapshotOutcome.ok { is_playing := true, is_liked := false,
                                is_shuffle := false, is_muted := false })
          [{ id := 0, kind := ButtonKind.playPause, hasActionRef := true },
           { id := 1, kind := ButtonKind.toggleLike, hasActionRef := true }]).imageWrites :=
  ⟨(c8_single_fetch_fanout
      { is_playing := true, is_liked := false, is_shuffle := false, is_muted := false }
      [{ id := 0, kind := ButtonKind.playPause, hasActionRef := true },
       { id := 1, kind := ButtonKind.toggleLike, hasActionRef := true }]).1,
   (c8_single_fetch_fanout
      { is_playing := true, is_liked := false, is_shuffle := false, is_muted := false }
      [{ id := 0, kind := ButtonKind.playPause, hasActionRef := true },
       { id := 1, kind := ButtonKind.toggleLike, hasActionRef := true }]).2
     { id := 0, kind := ButtonKind.playPause, hasActionRef := true }
     (by simp) rfl⟩

/-- C9: a rotate with negative tick count dispatches the configured
rotate-down command and any other tick count the rotate-up command, each
carrying the absolute tick count as its magnitude payload; a resolved
dispatch is followed by one ad-hoc refresh of the current source; an
unconfigured (empty) command dispatches nothing and only logs. -/
theorem c9_dial_rotate (settings : RotateSettings) (ticks : ℤ) (dispatchResolves : Bool) :
    (ticks < 0 → settings.dialActionDown.getD "" ≠ "" →
      (onDialRotate settings ticks dispatchResolves).dispatched
        = some { action := settings.dialActionDown.getD ""
                 magnitudePayload := ticks.natAbs })
    ∧ (0 ≤ ticks → settings.dialActionUp.getD "" ≠ "" →
      (onDialRotate settings ticks dispatchResolves).dispatched
        = some { action := settings.dialActionUp.getD ""
                 magnitudePayload := ticks.natAbs })
    ∧ ((onDialRotate settings ticks dispatchResolves).dispatched ≠ none →
        dispatchResolves = true →
      (onDialRotate settings ticks dispatchResolves).refreshedUrl
        = some (settings.imgUrl.getD ""))
    ∧ ((if ticks < 0 then settings.dialActionDown.getD ""
        else settings.dialActionUp.getD "") = "" →
      (onDialRotate settings ticks dispatchResolves).dispatched = none
      ∧ (onDialRotate settings ticks dispatchResolves).refreshedUrl = none
      ∧ (onDialRotate settings ticks dispatchResolves).logs
          = ["onDialRotate triggered: no action"]) := by
  refine ⟨?_, ?_, ?_, ?_⟩
  · intro hneg hcfg
    simp [onDialRotate, hneg, hcfg]
  · intro hpos hcfg
    have hnotlt : ¬ ticks < 0 := not_lt.mpr hpos
    simp [onDialRotate, hnotlt, hcfg]
  · intro hdisp hres
    by_cases hempty :
        (if ticks < 0 then settings.dialActionDown.getD ""
         else settings.dialActionUp.getD "") = ""
    · exact absurd (by simp [onDialRotate, hempty]) hdisp
    · simp [onDialRotate, hempty, hres]
  · intro hempty
    refine ⟨?_, ?_, ?_⟩ <;> simp [onDialRotate, hempty]

/-- C9 witness: rotating by -3 ticks with rotate-down bound to
volumedown dispatches volumedown with magnitude 3 and then refreshes the
configured source, and an unbound rotate-up with +2 ticks only logs,
each through the theorem. -/
theorem c9_dial_rotate_witness :
    (onDialRotate
      { dialActionDown := some "volumedown", dialActionUp := some "volumeup"
        imgUrl := some "http://cover" } (-3) true).dispatched
      = some { action := "volumedown", magnitudePayload := 3 }
    ∧ (onDialRotate
      { dialActionDown := some "volumedown", dialActionUp := some "volumeup"
        imgUrl := some "http://cover" } (-3) true).refreshedUrl = some "http://cover"
    ∧ (onDialRotate
      { dialActionDown := none, dialActionUp := none, imgUrl := none } 2 true).dispatched
      = none :=
  ⟨(c9_dial_rotate
      { dialActionDown := some "volumedown", dialActionUp := some "volumeup"
        imgUrl := some "http://cover" } (-3) true).1 (by decide) (by decide),
   (c9_dial_rotate
      { dialActionDown := some "volumedown", dialActionUp := some "volumeup"
        imgUrl := some "http://cover" } (-3) true).2.2.1
     (by
       rw [(c9_dial_rotate
         { dialActionDown := some "volumedown", dialActionUp := some "volumeup"
           imgUrl := some "http://cover" } (-3) true).1 (by decide) (by decide)]
       simp) rfl,
   ((c9_dial_rotate
      { dialActionDown := none, dialActionUp := none, imgUrl := none } 2 true).2.2.2
     (by decide)).1⟩

/-- Helper for C4: when every attempt raises the connection error event,
downloadImage recurses through all its retries and performs exactly
retries + 1 attempts before rejecting with the last error. -/
theorem downloadImage_all_connError (behavior : Nat → AttemptOutcome) (msg : String)
    (h : ∀ n, behavior n = AttemptOutcome.connError msg) :
    ∀ retries attempt,
      downloadImage behavior attempt retries = (DownloadResult.failed msg, retries + 1) := by
  intro retries
  induction retries with
  | zero =>
    intro attempt
    simp [downloadImage, h attempt]
  | succ r ih =>
    intro attempt
    simp [downloadImage, h attempt, ih (attempt + 1)]

/-- C4 counterexample: a source whose every request times out fails at
the transport level on every request, yet downloadImage with retries = 3
performs exactly one attempt, not retries + 1 = 4, before its terminal
failure. -/
theorem c4_counterexample :
    downloadImage (fun _ => AttemptOutcome.timedOut) 0 3
      = (DownloadResult.failed "Request timeout", 1)
    ∧ (1 : Nat) ≠ 3 + 1 :=
  ⟨rfl, by decide⟩

/-- C4 amended: a source whose every request fails with a connection
error produces exactly retries + 1 attempts and then a terminal handled
failure; a request that times out fails terminally on that single
attempt with no retry; and on a terminally failed fetch the dial
controller applies the fixed placeholder imgs/action/dial-error.png. -/
theorem c4_amended (behavior : Nat → AttemptOutcome) (msg : String) (retries : Nat)
    (h : ∀ n, behavior n = AttemptOutcome.connError msg) :
    downloadImage behavior 0 retries = (DownloadResult.failed msg, retries + 1)
    ∧ (∀ behavior2 attempt2 retries2, behavior2 attempt2 = AttemptOutcome.timedOut →
      downloadImage behavior2 attempt2 retries2
        = (DownloadResult.failed "Request timeout", 1))
    ∧ dialFeedbackOf (AttemptOutcome.connError msg)
        = Feedback.assetImage "imgs/action/dial-error.png"
    ∧ dialFeedbackOf AttemptOutcome.timedOut
        = Feedback.assetImage "imgs/action/dial-error.png" := by
  refine ⟨downloadImage_all_connError behavior msg h retries 0, ?_, rfl, rfl⟩
  intro behavior2 attempt2 retries2 h2
  simp [downloadImage, h2]

/-- C4 witness: a source always failing with ECONNRESET makes four
attempts with retries = 3 and fails, through the theorem. -/
theorem c4_amended_witness :
    downloadImage (fun _ => AttemptOutcome.connError "ECONNRESET") 0 3
      = (DownloadResult.failed "ECONNRESET", 4)
    ∧ (∀ behavior2 attempt2 retries2, behavior2 attempt2 = AttemptOutcome.timedOut →
      downloadImage behavior2 attempt2 retries2
        = (DownloadResult.failed "Request timeout", 1))
    ∧ dialFeedbackOf (AttemptOutcome.connError "ECONNRESET")
        = Feedback.assetImage "imgs/action/dial-error.png"
    ∧ dialFeedbackOf AttemptOutcome.timedOut
        = Feedback.assetImage "imgs/action/dial-error.png" :=
  c4_amended (fun _ => AttemptOutcome.connError "ECONNRESET") "ECONNRESET" 3
    (fun _ => rfl)

/-- C1: the guard of startGlobalUpdate is checked before its awaits and
the timer handle is assigned only after them, so two start calls
interleaved at the suspension point both pass the guard: after both
resume, two recurring timers are active at once, the stored handle keeps
only the second, and stopGlobalUpdate can clear only that one — the
first timer leaks. This evaluates the failing interleaving. -/
theorem c1_two_timers :
    activeTimers (schedRun schedInit
      [SchedEvent.startCall, SchedEvent.startCall,
       SchedEvent.resumeStart, SchedEvent.resumeStart]) = [0, 1]
    ∧ (schedRun schedInit
      [SchedEvent.startCall, SchedEvent.startCall,
       SchedEvent.resumeStart, SchedEvent.resumeStart]).updateInterval = some 1
    ∧ activeTimers (schedRun schedInit
      [SchedEvent.startCall, SchedEvent.startCall,
       SchedEvent.resumeStart, SchedEvent.resumeStart,
       SchedEvent.stopCall]) = [0] := by
  decide

/-- C5 counterexample: when the snapshot fetch of the first tick never
settles, the second timer fire still issues a fetch at once, leaving two
snapshot requests outstanding concurrently — the overlapping tick is not
skipped. -/
theorem c5_counterexample :
    (tickRun tickInit [TickEvent.timerFire, TickEvent.timerFire]).outstandingFetches = 2
    ∧ (tickRun tickInit [TickEvent.timerFire, TickEvent.timerFire]).fetchesIssued = 2 :=
  ⟨rfl, rfl⟩

/-- C5 amended: the tick callback never checks for an outstanding fetch:
every timer fire issues one more snapshot fetch immediately, so n fires
with no settlement leave n fetches outstanding concurrently; the firing
schedule itself stays interval-relative because setInterval is left
untouched. -/
theorem c5_amended (s : TickState) (n : Nat) :
    (tickRun s (List.replicate n TickEvent.timerFire)).outstandingFetches
      = s.outstandingFetches + n
    ∧ (tickRun s (List.replicate n TickEvent.timerFire)).fetchesIssued
      = s.fetchesIssued + n := by
  induction n generalizing s with
  | zero => exact ⟨rfl, rfl⟩
  | succ k ih =>
    rcases ih (tickStep s TickEvent.timerFire) with ⟨h1, h2⟩
    rw [List.replicate_succ]
    constructor
    · show (tickRun (tickStep s TickEvent.timerFire)
        (List.replicate k TickEvent.timerFire)).outstandingFetches = _
      rw [h1]
      show s.outstandingFetches + 1 + k = s.outstandingFetches + (k + 1)
      omega
    · show (tickRun (tickStep s TickEvent.timerFire)
        (List.replicate k TickEvent.timerFire)).fetchesIssued = _
      rw [h2]
      show s.fetchesIssued + 1 + k = s.fetchesIssued + (k + 1)
      omega

/-- C2 counterexample: registering one dial and then unregistering it
leaves both registries empty while the scheduler keeps running, because
the dial disappear handler deletes its entry without ever stopping the
global update. -/
theorem c2_counterexample :
    (regRun regInit [RegEvent.dialAppear 7 "img://a", RegEvent.dialDisappear 7]).timerRunning
      = true
    ∧ (regRun regInit [RegEvent.dialAppear 7 "img://a", RegEvent.dialDisappear 7]).buttons
      = []
    ∧ (regRun regInit [RegEvent.dialAppear 7 "img://a", RegEvent.dialDisappear 7]).dials
      = [] := by
  decide

/-- Helper for C2: one lifecycle step preserves the invariant that the
scheduler runs whenever a button instance is registered. -/
theorem regStep_buttons_timer (s : RegState) (e : RegEvent)
    (h : s.buttons ≠ [] → s.timerRunning = true) :
    (regStep s e).buttons ≠ [] → (regStep s e).timerRunning = true := by
  cases e with
  | buttonAppear id =>
    intro hne
    by_cases hm : id ∈ s.buttons
    · simp only [regStep, if_pos hm] at hne ⊢
      exact h hne
    · simp only [regStep, if_neg hm] at hne ⊢
      show (if (s.buttons ++ [id]).length = 1 then true else s.timerRunning) = true
      by_cases hb : s.buttons = []
      · rw [hb]
        simp
      · have hlen0 : s.buttons.length ≠ 0 := by
          simpa [List.length_eq_zero] using hb
        have hlen : (s.buttons ++ [id]).length ≠ 1 := by
          simp only [List.length_append, List.length_cons, List.length_nil]
          omega
        rw [if_neg hlen]
        exact h hb
  | buttonDisappear id =>
    intro hne
    have hne2 : s.buttons.erase id ≠ [] := hne
    show (if s.buttons.erase id = [] then false else s.timerRunning) = true
    rw [if_neg hne2]
    apply h
    intro hnil
    exact hne2 (by simp [hnil])
  | dialAppear id url =>
    intro _
    rfl
  | dialDisappear id =>
    intro hne
    exact h hne

/-- Helper for C2: the invariant transported along any event list. -/
theorem regRun_buttons_timer (events : List RegEvent) :
    ∀ s : RegState, (s.buttons ≠ [] → s.timerRunning = true) →
      (regRun s events).buttons ≠ [] → (regRun s events).timerRunning = true := by
  induction events with
  | nil => exact fun s h => h
  | cons e rest ih => exact fun s h => ih (regStep s e) (regStep_buttons_timer s e h)

/-- C2 amended: after any sequence of appear and disappear events the
scheduler is running whenever the button registry is non-empty; a dial
appear always leaves it running; a button disappear that empties the
button registry always stops it (even while dials remain); a dial
disappear never stops it, so the scheduler can stay running with no
widget registered at all. -/
theorem c2_amended (events : List RegEvent) :
    ((regRun regInit events).buttons ≠ [] → (regRun regInit events).timerRunning = true)
    ∧ (∀ id url,
      (regStep (regRun regInit events) (RegEvent.dialAppear id url)).timerRunning = true)
    ∧ (∀ id,
      (regStep (regRun regInit events) (RegEvent.buttonDisappear id)).buttons = [] →
      (regStep (regRun regInit events) (RegEvent.buttonDisappear id)).timerRunning = false)
    ∧ (∀ id,
      (regStep (regRun regInit events) (RegEvent.dialDisappear id)).timerRunning
        = (regRun regInit events).timerRunning) := by
  refine ⟨regRun_buttons_timer events regInit (fun h => absurd rfl h), ?_, ?_, ?_⟩
  · intro id url
    rfl
  · intro id hempt
    have hempt2 : (regRun regInit events).buttons.erase id = [] := hempt
    show (if (regRun regInit events).buttons.erase id = [] then false
      else (regRun regInit events).timerRunning) = false
    rw [if_pos hempt2]
  · intro id
    rfl

/-- Helper for C3: setting a key of the displayed map makes lookup of
that key return the new value. -/
theorem lookup_mapSetFeedback (m : List (String × Feedback)) (k : String) (v : Feedback) :
    (mapSetFeedback m k v).lookup k = some v := by
  induction m with
  | nil => simp [mapSetFeedback]
  | cons p rest ih =>
    obtain ⟨k2, v2⟩ := p
    by_cases hk : k2 = k
    · subst hk
      simp [mapSetFeedback, List.lookup]
    · have hkb : (k == k2) = false := beq_eq_false_iff_ne.mpr (fun hkk => hk hkk.symm)
      simp [mapSetFeedback, hk, List.lookup, hkb, ih]

/-- C3 counterexample: a dial appears configured with source img://x
(fetch issued), its settings change the source to img://y (second fetch
issued), the img://y fetch settles first, and then the stale img://x
fetch settles: the displayed image ends as the img://x result although
the configured source is img://y. -/
theorem c3_counterexample :
    (dialsRun dialsInit
      [DialEvent.willAppear "d1" (some "img://x"),
       DialEvent.settingsChange "d1" (some "img://y"),
       DialEvent.fetchSettle "d1" "img://y" (AttemptOutcome.response 200 "bodyY"),
       DialEvent.fetchSettle "d1" "img://x" (AttemptOutcome.response 200 "bodyX")]).entries.lookup
      "d1" = some "img://y"
    ∧ (dialsRun dialsInit
      [DialEvent.willAppear "d1" (some "img://x"),
       DialEvent.settingsChange "d1" (some "img://y"),
       DialEvent.fetchSettle "d1" "img://y" (AttemptOutcome.response 200 "bodyY"),
       DialEvent.fetchSettle "d1" "img://x" (AttemptOutcome.response 200 "bodyX")]).displayed.lookup
      "d1" = some (Feedback.dataImage "bodyX")
    ∧ "img://x" ≠ "img://y" := by
  refine ⟨?_, ?_, by decide⟩ <;> rfl

/-- C3 amended: a settled in-flight fetch is applied unconditionally:
even when the source configured for the widget no longer matches the url
the fetch was issued for, its result becomes the displayed feedback, and
the stored configuration is not touched. -/
theorem c3_amended (s : DialsState) (id url : String) (o : AttemptOutcome)
    (hin : (id, url) ∈ s.inFlight)
    (_hstale : s.entries.lookup id ≠ some url) :
    (dialStep s (DialEvent.fetchSettle id url o)).displayed.lookup id
      = some (dialFeedbackOf o)
    ∧ (dialStep s (DialEvent.fetchSettle id url o)).entries = s.entries := by
  constructor
  · simp only [dialStep, hin, if_true]
    exact lookup_mapSetFeedback s.displayed id (dialFeedbackOf o)
  · simp [dialStep, hin]

/-- C3 amended witness: a stale fetch for img://x settles while the
configuration already points at img://y, and its image is applied
anyway, through the theorem. -/
theorem c3_amended_witness :
    (dialStep
      { entries := [("d1", "img://y")], displayed := [],
        inFlight := [("d1", "img://x")] }
      (DialEvent.fetchSettle "d1" "img://x" (AttemptOutcome.response 200 "bodyX"))).displayed.lookup
      "d1" = some (Feedback.dataImage "bodyX")
    ∧ (dialStep
      { entries := [("d1", "img://y")], displayed := [],
        inFlight := [("d1", "img://x")] }
      (DialEvent.fetchSettle "d1" "img://x" (AttemptOutcome.response 200 "bodyX"))).entries
      = [("d1", "img://y")] :=
  c3_amended
    { entries := [("d1", "img://y")], displayed := [], inFlight := [("d1", "img://x")] }
    "d1" "img://x" (AttemptOutcome.response 200 "bodyX")
    (by decide) (by decide)

end SpotifyPlus
